import Mathlib

/-!
Shallow embedding of the nuclio function reconciliation controller
(`pkg/platform/kube/controller/nucliofunction.go`), together with proofs of
the specification's claims about `functionOperator.CreateOrUpdate` and its
helpers.

External collaborators (the k8s name validator, the `ResourceClient`, the
object store update) are modelled as oracle fields of an `Env` record; each
reconcile run consults the oracle at the points where the Go code performs
the corresponding external call.  A call outcome can be a value, an error,
or a Go panic.  Time is modelled by two oracle clock readings, one per
`time.Now()` call site in program order.
-/

/-- Embeds `functionconfig.FunctionState` (a Go string enumeration).  `unset`
stands for the Go zero value `""`. -/
inductive FunctionState
  | waitingForResourceConfiguration
  | waitingForScaleResourcesFromZero
  | waitingForScaleResourcesToZero
  | ready
  | scaledToZero
  | imported
  | error
  | unhealthy
  | building
  | unset
  deriving DecidableEq, Repr

/-- Embeds `scaler_types.ScaleEvent`.  `zeroValue` stands for the Go zero value. -/
inductive ScaleEvent
  | scaleToZeroCompleted
  | scaleFromZeroCompleted
  | resourceUpdated
  | zeroValue
  deriving DecidableEq, Repr

/-- Go `error` values as produced by the `nuclio/errors` package: either a
fresh message (`errors.New`) or a wrapping of an inner error
(`errors.Wrap`). -/
inductive Err
  | msg (s : String)
  | wrap (s : String) (inner : Err)
  deriving DecidableEq, Repr

/-- Embeds `functionconfig.ScaleToZeroStatus`. -/
structure ScaleToZeroStatus where
  lastScaleEvent : ScaleEvent
  lastScaleEventTime : Nat
  deriving DecidableEq, Repr

/-- Embeds `functionconfig.Status`: the status sub-document of a function.  The Go
zero values are `unset`, `""`, `[]`, `0`, `none`. -/
structure Status where
  state : FunctionState
  message : String
  logs : List String
  httpPort : Int
  scaleToZero : Option ScaleToZeroStatus
  deriving DecidableEq, Repr

/-- Embeds `nuclioio.NuclioFunction`: the reconciled custom resource.  `ns` is the
Go `Namespace` field (a Lean keyword). -/
structure NuclioFunction where
  name : String
  ns : String
  annotations : List (String × String)
  readinessTimeoutSeconds : Nat
  status : Status
  deriving DecidableEq, Repr

/-- A named port of the child service (`v1.ServicePort`). -/
structure ServicePort where
  name : String
  nodePort : Int
  deriving DecidableEq, Repr

/-- The child service spec: its list of named ports. -/
structure Service where
  ports : List ServicePort
  deriving DecidableEq, Repr

/-- Outcome of an external call: a value, a returned error, or a Go panic
that unwinds the caller. -/
inductive CallResult (α : Type)
  | ok (a : α)
  | err (e : Err)
  | panics (e : Err)
  deriving DecidableEq, Repr

/-- The opaque handle returned by `functionresClient.CreateOrUpdate`; it
exposes `Service()`, which may itself fail or panic. -/
structure Resources where
  service : CallResult (Option Service)
  deriving DecidableEq, Repr

/-- A Go `context.Context`, reduced to the one observable the code uses:
an optional absolute deadline. -/
structure Ctx where
  deadline : Option Nat
  deriving DecidableEq, Repr

/-- Oracle environment for one reconcile run: results of the external calls
in `CreateOrUpdate`, and the two wall-clock readings (`now` for the
`time.Now()` at the readiness deadline, `nowScale` for the `time.Now()`
inside `setFunctionScaleToZeroStatus`). -/
structure Env where
  qualifiedNameErrors : String → List String
  resourceCreateOrUpdate : CallResult Resources
  waitAvailable : CallResult Unit
  statusUpdate : Except Err Unit
  now : Nat
  nowScale : Nat

/-- Embeds `strings.Join(l, sep)`. -/
def joinStrings (sep : String) : List String → String
  | [] => ""
  | [s] => s
  | s :: rest => s ++ sep ++ joinStrings sep rest

/-- The list of error frames carried by an error value, outermost first. -/
def errFrames : Err → List String
  | .msg s => [s]
  | .wrap s inner => s :: errFrames inner

/-- Modelled from the spec: `errors.GetErrorStackString` (external
`nuclio/errors` library) renders the error stack as text, bounded to the
given depth of frames ("message (free-form, used for error stacks, bounded
depth ≤ 10 frames)"). -/
def GetErrorStackString (e : Err) (depth : Nat) : String :=
  joinStrings "\n" ((errFrames e).take depth)

/-- Embeds `functionconfig.FunctionStateInSlice` (repository helper outside the
analysed file): membership of a state in a list of states. -/
def FunctionStateInSlice (s : FunctionState) (l : List FunctionState) : Bool :=
  l.contains s

/-- Modelled from the spec: `functionconfig.ShouldSkipDeploy` is not under
src/; the spec says annotations include a `skip-deploy` marker,
"presence + truthy value means do not materialize resources", and scenario
S5 uses the value `"true"`. -/
def ShouldSkipDeploy (annotations : List (String × String)) : Bool :=
  match annotations.lookup "skip-deploy" with
  | some v => v == "true"
  | none => false

/-- Modelled from the spec: `abstract.DefaultReadinessTimeoutSeconds` is not
under src/; the spec suggests the value 120. -/
def DefaultReadinessTimeoutSeconds : Nat := 120

/-- Modelled from the Go library contract: `context.WithDeadline` derives a
child context whose deadline is the earlier of the parent deadline and the
given absolute time; the associated cancel function must be called on exit
(the code defers it). -/
def withDeadline (ctx : Ctx) (d : Nat) : Ctx :=
  ⟨some (match ctx.deadline with
         | none => d
         | some pd => min pd d)⟩

/-- Embeds `functionres.ContainerHTTPPortName`. -/
def ContainerHTTPPortName : String := "http"

/-- The loop body of `getFunctionHTTPPort`: `httpPort` starts at 0 and the
loop breaks at the first port named `http`, taking its node port. -/
def scanHTTPPort : List ServicePort → Int
  | [] => 0
  | p :: rest =>
    if p.name == ContainerHTTPPortName then p.nodePort else scanHTTPPort rest

/-- Embeds `functionOperator.getFunctionHTTPPort`: fetch the child service and scan
its ports for the `http` node port; 0 when the service is nil or has no
ports. -/
def getFunctionHTTPPort (functionResources : Resources) : CallResult Int :=
  match functionResources.service with
  | .panics e => .panics e
  | .err e => .err (Err.wrap "Failed to get function service" e)
  | .ok none => .ok 0
  | .ok (some service) => .ok (scanHTTPPort service.ports)

/-- Result of a status write: the mutated function object, the list of
status documents sent to the object store, and the returned error. -/
structure WriteOutcome where
  fn : NuclioFunction
  writes : List Status
  ret : Option Err
  deriving DecidableEq, Repr

/-- Embeds `functionOperator.setFunctionStatus`: overwrite `function.Status` with
the given status, then issue the object-store update and return its error
verbatim. -/
def setFunctionStatus (env : Env) (function : NuclioFunction)
    (status : Status) : WriteOutcome :=
  let function' := { function with status := status }
  match env.statusUpdate with
  | .ok _ => ⟨function', [status], none⟩
  | .error e => ⟨function', [status], some e⟩

/-- Outcome of `setFunctionError`.  `derefFault` records the nil-pointer
dereference that evaluating `function.Name` in the warning-log arguments
performs when the target is nil: the Go code has no nil guard. -/
inductive SetErrorOutcome
  | derefFault
  | done (fn : NuclioFunction) (writes : List Status) (ret : Err)
  deriving DecidableEq, Repr

/-- Embeds `functionOperator.setFunctionError`: log at WARN (the log arguments
evaluate `function.Name`, which dereferences the target pointer), write a
status of the given error state whose message is the depth-10 stack of the
error, and return the original error even when the inner write fails. -/
def setFunctionError (env : Env) (function : Option NuclioFunction)
    (functionErrorState : FunctionState) (err : Err) : SetErrorOutcome :=
  match function with
  | none => .derefFault
  | some fn =>
    let w := setFunctionStatus env fn
      { state := functionErrorState
        message := GetErrorStackString err 10
        logs := []
        httpPort := 0
        scaleToZero := none }
    .done w.fn w.writes err

/-- Embeds `functionOperator.setFunctionScaleToZeroStatus`: populate
`status.ScaleToZero` with the event and the current time; always returns a
nil error. -/
def setFunctionScaleToZeroStatus (env : Env) (functionStatus : Status)
    (scaleToZeroEvent : ScaleEvent) : Status × Option Err :=
  ({ functionStatus with
      scaleToZero := some ⟨scaleToZeroEvent, env.nowScale⟩ }, none)

/-- The states the reconciler responds to (`statesToRespond` in
`CreateOrUpdate`). -/
def statesToRespond : List FunctionState :=
  [FunctionState.waitingForResourceConfiguration,
   FunctionState.waitingForScaleResourcesFromZero,
   FunctionState.waitingForScaleResourcesToZero,
   FunctionState.ready,
   FunctionState.scaledToZero]

/-- The provisioning waiting states (`waitingStates` in `CreateOrUpdate`). -/
def waitingStates : List FunctionState :=
  [FunctionState.waitingForResourceConfiguration,
   FunctionState.waitingForScaleResourcesFromZero,
   FunctionState.waitingForScaleResourcesToZero]

/-- The `switch function.Status.State` in `CreateOrUpdate`: the scale event
and final state for each waiting state.  The default branch leaves the Go
variables at their zero values; it is unreachable under the guard
`FunctionStateInSlice function.Status.State waitingStates`. -/
def waitingTransition : FunctionState → ScaleEvent × FunctionState
  | .waitingForScaleResourcesToZero =>
    (.scaleToZeroCompleted, .scaledToZero)
  | .waitingForScaleResourcesFromZero =>
    (.scaleFromZeroCompleted, .ready)
  | .waitingForResourceConfiguration =>
    (.resourceUpdated, .ready)
  | _ => (.zeroValue, .unset)

/-- The Go zero-valued `functionconfig.Status` with only `State` set, as in
`&functionconfig.Status{State: s}`. -/
def stateOnlyStatus (s : FunctionState) : Status :=
  { state := s, message := "", logs := [], httpPort := 0, scaleToZero := none }

/-- Outcome of the body of `CreateOrUpdate`, from name validation onward
(the part guarded by the deferred panic recovery).  `normal` is an ordinary
return; `panicked` is a Go panic unwinding out of the body.  Both record the
status writes issued so far, whether `functionresClient.CreateOrUpdate` was
called, and the deadline of the derived readiness wait context when it was
created (`none` before line 167 runs). -/
inductive BodyResult
  | normal (fn : NuclioFunction) (writes : List Status) (ret : Option Err)
      (resourceCreateCalled : Bool) (waitDeadline : Option Nat)
  | panicked (e : Err) (writes : List Status)
      (resourceCreateCalled : Bool) (waitDeadline : Option Nat)
  deriving DecidableEq, Repr

/-- The tail of `CreateOrUpdate` from `waitingStates` on: on a waiting
state, compute the transition, fetch the http port, stamp the scale event
and write the reconstructed status; otherwise return nil. -/
def finalizeWaiting (env : Env) (function : NuclioFunction)
    (resources : Resources) (waitDeadline : Option Nat) : BodyResult :=
  if FunctionStateInSlice function.status.state waitingStates then
    let scaleEvent := (waitingTransition function.status.state).1
    let finalState := (waitingTransition function.status.state).2
    match getFunctionHTTPPort resources with
    | .panics e => .panicked e [] true waitDeadline
    | .err e =>
      .normal function [] (some (Err.wrap "Failed to get function http port" e))
        true waitDeadline
    | .ok httpPort =>
      -- NOTE (from the source): this reconstructs function status and hence
      -- omits all other function status fields such as message and logs.
      let functionStatus : Status :=
        { state := finalState, message := "", logs := []
          httpPort := httpPort, scaleToZero := none }
      match setFunctionScaleToZeroStatus env functionStatus scaleEvent with
      | (_, some e) =>
        .normal function []
          (some (Err.wrap "Failed setting function scale to zero status" e))
          true waitDeadline
      | (functionStatus', none) =>
        let w := setFunctionStatus env function functionStatus'
        .normal w.fn w.writes w.ret true waitDeadline
  else
    .normal function [] none true waitDeadline

/-- The provisioning path of `CreateOrUpdate`: ensure function resources,
derive the bounded readiness context, wait for availability, then finalize.
Error classification: resource creation failure sets state `error`,
readiness failure sets state `unhealthy`. -/
def ensureResources (env : Env) (ctx : Ctx) (function : NuclioFunction) :
    BodyResult :=
  match env.resourceCreateOrUpdate with
  | .panics e => .panicked e [] true none
  | .err e =>
    match setFunctionError env (some function) .error
        (Err.wrap "Failed to create/update function" e) with
    | .derefFault => .panicked (Err.msg "nil pointer dereference") [] true none
    | .done fn' ws ret => .normal fn' ws (some ret) true none
  | .ok resources =>
    let readinessTimeout :=
      if function.readinessTimeoutSeconds == 0 then
        DefaultReadinessTimeoutSeconds
      else function.readinessTimeoutSeconds
    let waitContext := withDeadline ctx (env.now + readinessTimeout)
    match env.waitAvailable with
    | .panics e => .panicked e [] true waitContext.deadline
    | .err e =>
      match setFunctionError env (some function) .unhealthy
          (Err.wrap "Failed to wait for function resources to be available" e) with
      | .derefFault =>
        .panicked (Err.msg "nil pointer dereference") [] true waitContext.deadline
      | .done fn' ws ret => .normal fn' ws (some ret) true waitContext.deadline
    | .ok _ => finalizeWaiting env function resources waitContext.deadline

/-- The body of `CreateOrUpdate` guarded by the panic-recovery defer: name
validation, the responded-states filter, the skip-deploy shortcut, then the
provisioning path. -/
def createOrUpdateBody (env : Env) (ctx : Ctx) (function : NuclioFunction) :
    BodyResult :=
  let errorMessages := env.qualifiedNameErrors function.name
  if errorMessages.length != 0 then
    .normal function []
      (some (Err.msg
        ("Function name doesn\u0027t conform to k8s naming convention. Errors: "
          ++ joinStrings ", " errorMessages)))
      false none
  else if ! FunctionStateInSlice function.status.state statesToRespond then
    .normal function [] none false none
  else if ShouldSkipDeploy function.annotations then
    let w := setFunctionStatus env function
      (stateOnlyStatus FunctionState.imported)
    .normal w.fn w.writes w.ret false none
  else
    ensureResources env ctx function

/-- The handled object: either a `NuclioFunction` or some other runtime
object (the failing type assertion case). -/
inductive RuntimeObject
  | function (fn : NuclioFunction)
  | other
  deriving DecidableEq, Repr

/-- Observable outcome of one `CreateOrUpdate` invocation.  `ret` is the
returned Go error (`none` is nil).  `fn` is the final in-memory function
object when the input was a function.  `writes` lists the status documents
sent to the object store, in order.  `uncaught` marks a panic escaping the
handler (crashing the worker); `panicRecovered` marks a panic captured by
the deferred recovery.  `cancelCalled` records that the deferred cancel of
the bounded wait context ran. -/
structure RunResult where
  ret : Option Err
  fn : Option NuclioFunction
  writes : List Status
  resourceCreateCalled : Bool
  panicRecovered : Bool
  uncaught : Bool
  waitDeadline : Option Nat
  cancelCalled : Bool
  deriving DecidableEq, Repr

/-- Embeds `functionOperator.CreateOrUpdate`.  The failing type assertion calls
`setFunctionError` on a nil target before the recovery defer is installed,
so a panic there escapes the handler.  A panic in the body is recovered by
the deferred `CatchAndLogPanicWithOptions` (modelled from the spec: the
custom handler sets the function error and the panic is swallowed, the
handler returning the zero-valued nil error); the deferred cancel runs on
every exit after the wait context is derived. -/
def CreateOrUpdate (env : Env) (ctx : Ctx) (object : RuntimeObject) :
    RunResult :=
  match object with
  | .other =>
    match setFunctionError env none .error
        (Err.msg "Received unexpected object, expected function") with
    | .derefFault =>
      ⟨none, none, [], false, false, true, none, false⟩
    | .done fn' ws ret =>
      ⟨some ret, some fn', ws, false, false, false, none, false⟩
  | .function function =>
    match createOrUpdateBody env ctx function with
    | .normal fn' ws ret rcc wd =>
      ⟨ret, some fn', ws, rcc, false, false, wd, wd.isSome⟩
    | .panicked e ws rcc wd =>
      match setFunctionError env (some function) .error
          (Err.wrap "Failed to create/update function" e) with
      | .derefFault =>
        ⟨none, some function, ws, rcc, false, true, wd, wd.isSome⟩
      | .done fn' ws2 _ =>
        ⟨none, some fn', ws ++ ws2, rcc, true, false, wd, wd.isSome⟩

/-! ### Helper lemmas -/

/-- A depth-10 stack rendering of a wrapped error whose outer frame is a
nonempty string is itself nonempty. -/
theorem getErrorStackString_wrap_length_pos (s : String) (e : Err)
    (hs : 0 < s.length) : 0 < (GetErrorStackString (Err.wrap s e) 10).length := by
  unfold GetErrorStackString errFrames
  rw [List.take_succ_cons]
  cases h : (errFrames e).take 9 with
  | nil => simpa [joinStrings]
  | cons t r =>
    simp only [joinStrings, String.length_append]
    omega

/-- The first port of a port list named `http`, if any. -/
def firstHTTPPort (ports : List ServicePort) : Option ServicePort :=
  List.find? (fun p => p.name == ContainerHTTPPortName) ports

/-- The http-port scan computes the node port of the first port named
`http`, or 0 when there is none. -/
theorem scanHTTPPort_eq_firstHTTPPort (ports : List ServicePort) :
    scanHTTPPort ports =
      (match firstHTTPPort ports with
       | some p => p.nodePort
       | none => 0) := by
  induction ports with
  | nil => rfl
  | cons p rest ih =>
    by_cases h : (p.name == ContainerHTTPPortName) = true
    · simp [scanHTTPPort, firstHTTPPort, List.find?, h]
    · simp only [Bool.not_eq_true] at h
      simp [scanHTTPPort, firstHTTPPort, List.find?, h, ih]

/-! ### Claim theorems -/

/-- C6: for every Function whose name fails qualified-name validation,
`CreateOrUpdate` returns a validation error and the function status is not
touched — no status write occurs on this path. -/
theorem createOrUpdate_invalid_name_no_status_write
    (env : Env) (ctx : Ctx) (fn : NuclioFunction) (msgs : List String)
    (hmsgs : env.qualifiedNameErrors fn.name = msgs) (hne : msgs ≠ []) :
    CreateOrUpdate env ctx (RuntimeObject.function fn) =
      ⟨some (Err.msg
        ("Function name doesn\u0027t conform to k8s naming convention. Errors: "
          ++ joinStrings ", " msgs)),
       some fn, [], false, false, false, none, false⟩ := by
  obtain ⟨a, l, rfl⟩ := List.exists_cons_of_ne_nil hne
  simp [CreateOrUpdate, createOrUpdateBody, hmsgs]

/-- Witness for C6 at a concrete invalid name. -/
theorem createOrUpdate_invalid_name_no_status_write_witness :
    (⟨fun _ => ["bad"], .ok ⟨.ok none⟩, .ok (), .ok (), 0, 0⟩ : Env).qualifiedNameErrors
        "Fn_1!" = ["bad"] ∧
    CreateOrUpdate ⟨fun _ => ["bad"], .ok ⟨.ok none⟩, .ok (), .ok (), 0, 0⟩ ⟨none⟩
        (RuntimeObject.function ⟨"Fn_1!", "default", [], 0,
          ⟨.waitingForResourceConfiguration, "", [], 0, none⟩⟩) =
      ⟨some (Err.msg
        ("Function name doesn\u0027t conform to k8s naming convention. Errors: "
          ++ joinStrings ", " ["bad"])),
       some ⟨"Fn_1!", "default", [], 0,
          ⟨.waitingForResourceConfiguration, "", [], 0, none⟩⟩,
       [], false, false, false, none, false⟩ :=
  ⟨rfl, createOrUpdate_invalid_name_no_status_write _ _ _ ["bad"] rfl (by decide)⟩

/-- C5: on a responded-to state with a present and truthy skip-deploy
annotation, the resource client is never called, the status is written as
state `imported` only, and the handler returns nil unless that status write
fails. -/
theorem createOrUpdate_skip_deploy_imported
    (env : Env) (ctx : Ctx) (fn : NuclioFunction)
    (hname : env.qualifiedNameErrors fn.name = [])
    (hstate : FunctionStateInSlice fn.status.state statesToRespond = true)
    (hskip : ShouldSkipDeploy fn.annotations = true) :
    (CreateOrUpdate env ctx (RuntimeObject.function fn)).resourceCreateCalled
        = false ∧
    (CreateOrUpdate env ctx (RuntimeObject.function fn)).writes
        = [stateOnlyStatus FunctionState.imported] ∧
    (CreateOrUpdate env ctx (RuntimeObject.function fn)).fn
        = some { fn with status := stateOnlyStatus FunctionState.imported } ∧
    (CreateOrUpdate env ctx (RuntimeObject.function fn)).ret
        = (match env.statusUpdate with
           | .ok _ => none
           | .error e => some e) := by
  cases h : env.statusUpdate with
  | ok u =>
    simp [CreateOrUpdate, createOrUpdateBody, hname, hstate, hskip,
      setFunctionStatus, h]
  | error e =>
    simp [CreateOrUpdate, createOrUpdateBody, hname, hstate, hskip,
      setFunctionStatus, h]

/-- Witness for C5 at a concrete skip-deploy function. -/
theorem createOrUpdate_skip_deploy_imported_witness :
    (⟨fun _ => [], .ok ⟨.ok none⟩, .ok (), .ok (), 0, 0⟩ : Env).qualifiedNameErrors
        "fn5" = [] ∧
    FunctionStateInSlice FunctionState.waitingForResourceConfiguration
        statesToRespond = true ∧
    ShouldSkipDeploy [("skip-deploy", "true")] = true ∧
    (CreateOrUpdate ⟨fun _ => [], .ok ⟨.ok none⟩, .ok (), .ok (), 0, 0⟩ ⟨none⟩
      (RuntimeObject.function ⟨"fn5", "default", [("skip-deploy", "true")], 0,
        ⟨.waitingForResourceConfiguration, "", [], 0, none⟩⟩)).resourceCreateCalled
      = false ∧
    (CreateOrUpdate ⟨fun _ => [], .ok ⟨.ok none⟩, .ok (), .ok (), 0, 0⟩ ⟨none⟩
      (RuntimeObject.function ⟨"fn5", "default", [("skip-deploy", "true")], 0,
        ⟨.waitingForResourceConfiguration, "", [], 0, none⟩⟩)).writes
      = [stateOnlyStatus FunctionState.imported] := by
  refine ⟨rfl, by decide, by decide, ?_, ?_⟩
  · exact (createOrUpdate_skip_deploy_imported _ ⟨none⟩ _ rfl (by decide)
      (by decide)).1
  · exact (createOrUpdate_skip_deploy_imported _ ⟨none⟩ _ rfl (by decide)
      (by decide)).2.1

/-- C4: on input state `ready` or `scaledToZero`, when resource creation
and the readiness wait both succeed, the status is not mutated, no status
write is issued, and `CreateOrUpdate` returns nil. -/
theorem createOrUpdate_ready_or_scaled_noop
    (env : Env) (ctx : Ctx) (fn : NuclioFunction) (res : Resources)
    (hstate : fn.status.state = FunctionState.ready ∨
              fn.status.state = FunctionState.scaledToZero)
    (hname : env.qualifiedNameErrors fn.name = [])
    (hskip : ShouldSkipDeploy fn.annotations = false)
    (hcreate : env.resourceCreateOrUpdate = .ok res)
    (hwait : env.waitAvailable = .ok ()) :
    (CreateOrUpdate env ctx (RuntimeObject.function fn)).fn = some fn ∧
    (CreateOrUpdate env ctx (RuntimeObject.function fn)).writes = [] ∧
    (CreateOrUpdate env ctx (RuntimeObject.function fn)).ret = none := by
  rcases hstate with h | h <;>
    simp [CreateOrUpdate, createOrUpdateBody, ensureResources, finalizeWaiting,
      hname, hskip, hcreate, hwait, h, FunctionStateInSlice, statesToRespond,
      waitingStates]

/-- Witness for C4 at a concrete ready function. -/
theorem createOrUpdate_ready_or_scaled_noop_witness :
    (CreateOrUpdate ⟨fun _ => [], .ok ⟨.ok none⟩, .ok (), .ok (), 0, 0⟩ ⟨none⟩
      (RuntimeObject.function ⟨"fn4", "default", [], 0,
        ⟨.ready, "", [], 0, none⟩⟩)).fn
      = some ⟨"fn4", "default", [], 0, ⟨.ready, "", [], 0, none⟩⟩ ∧
    (CreateOrUpdate ⟨fun _ => [], .ok ⟨.ok none⟩, .ok (), .ok (), 0, 0⟩ ⟨none⟩
      (RuntimeObject.function ⟨"fn4", "default", [], 0,
        ⟨.ready, "", [], 0, none⟩⟩)).writes = [] ∧
    (CreateOrUpdate ⟨fun _ => [], .ok ⟨.ok none⟩, .ok (), .ok (), 0, 0⟩ ⟨none⟩
      (RuntimeObject.function ⟨"fn4", "default", [], 0,
        ⟨.ready, "", [], 0, none⟩⟩)).ret = none :=
  createOrUpdate_ready_or_scaled_noop _ _ _ ⟨.ok none⟩ (Or.inl rfl) rfl
    (by decide) rfl rfl

/-- C2: provisioning failures are classified by phase — resource creation
failure sets state `error` and returns the wrapped error; readiness-wait
failure sets state `unhealthy` (not `error`) and returns the wrapped
error. -/
theorem createOrUpdate_failure_classification
    (env : Env) (ctx : Ctx) (fn : NuclioFunction) (e : Err)
    (hname : env.qualifiedNameErrors fn.name = [])
    (hstate : FunctionStateInSlice fn.status.state statesToRespond = true)
    (hskip : ShouldSkipDeploy fn.annotations = false) :
    (env.resourceCreateOrUpdate = .err e →
      (CreateOrUpdate env ctx (RuntimeObject.function fn)).ret
        = some (Err.wrap "Failed to create/update function" e) ∧
      (CreateOrUpdate env ctx (RuntimeObject.function fn)).writes
        = [⟨FunctionState.error,
            GetErrorStackString (Err.wrap "Failed to create/update function" e) 10,
            [], 0, none⟩]) ∧
    (∀ res : Resources, env.resourceCreateOrUpdate = .ok res →
      env.waitAvailable = .err e →
      (CreateOrUpdate env ctx (RuntimeObject.function fn)).ret
        = some (Err.wrap "Failed to wait for function resources to be available" e) ∧
      (CreateOrUpdate env ctx (RuntimeObject.function fn)).writes
        = [⟨FunctionState.unhealthy,
            GetErrorStackString
              (Err.wrap "Failed to wait for function resources to be available" e) 10,
            [], 0, none⟩]) := by
  constructor
  · intro hcreate
    cases h : env.statusUpdate with
    | ok u =>
      simp [CreateOrUpdate, createOrUpdateBody, ensureResources, hname, hstate,
        hskip, hcreate, setFunctionError, setFunctionStatus, h]
    | error e2 =>
      simp [CreateOrUpdate, createOrUpdateBody, ensureResources, hname, hstate,
        hskip, hcreate, setFunctionError, setFunctionStatus, h]
  · intro res hcreate hwait
    cases h : env.statusUpdate with
    | ok u =>
      simp [CreateOrUpdate, createOrUpdateBody, ensureResources, hname, hstate,
        hskip, hcreate, hwait, setFunctionError, setFunctionStatus, h]
    | error e2 =>
      simp [CreateOrUpdate, createOrUpdateBody, ensureResources, hname, hstate,
        hskip, hcreate, hwait, setFunctionError, setFunctionStatus, h]

/-- Witness for C2 at a concrete creation failure. -/
theorem createOrUpdate_failure_classification_witness :
    (⟨fun _ => [], .err (.msg "no quota"), .ok (), .ok (), 0, 0⟩ : Env).resourceCreateOrUpdate
      = .err (.msg "no quota") ∧
    (CreateOrUpdate ⟨fun _ => [], .err (.msg "no quota"), .ok (), .ok (), 0, 0⟩ ⟨none⟩
      (RuntimeObject.function ⟨"fn2", "default", [], 0,
        ⟨.waitingForResourceConfiguration, "", [], 0, none⟩⟩)).ret
      = some (Err.wrap "Failed to create/update function" (.msg "no quota")) ∧
    (CreateOrUpdate ⟨fun _ => [], .err (.msg "no quota"), .ok (), .ok (), 0, 0⟩ ⟨none⟩
      (RuntimeObject.function ⟨"fn2", "default", [], 0,
        ⟨.waitingForResourceConfiguration, "", [], 0, none⟩⟩)).writes
      = [⟨FunctionState.error,
          GetErrorStackString
            (Err.wrap "Failed to create/update function" (.msg "no quota")) 10,
          [], 0, none⟩] := by
  refine ⟨rfl, ?_⟩
  exact (createOrUpdate_failure_classification _ ⟨none⟩ _ (.msg "no quota") rfl
    (by decide) (by decide)).1 rfl

/-- C1: a reconcile of a function in one of the three waiting states that
passes validation, is not skip-deploy and succeeds through provisioning
stamps exactly one scale event per the fixed mapping, and the new status
document replaces the old one entirely — message and logs are dropped. -/
theorem createOrUpdate_waiting_success_stamps_scale_event
    (env : Env) (ctx : Ctx) (fn : NuclioFunction) (res : Resources)
    (httpPort : Int)
    (hw : fn.status.state = FunctionState.waitingForResourceConfiguration ∨
          fn.status.state = FunctionState.waitingForScaleResourcesFromZero ∨
          fn.status.state = FunctionState.waitingForScaleResourcesToZero)
    (hname : env.qualifiedNameErrors fn.name = [])
    (hskip : ShouldSkipDeploy fn.annotations = false)
    (hcreate : env.resourceCreateOrUpdate = .ok res)
    (hwait : env.waitAvailable = .ok ())
    (hport : getFunctionHTTPPort res = .ok httpPort) :
    (CreateOrUpdate env ctx (RuntimeObject.function fn)).writes
      = [⟨(waitingTransition fn.status.state).2, "", [], httpPort,
          some ⟨(waitingTransition fn.status.state).1, env.nowScale⟩⟩] ∧
    (CreateOrUpdate env ctx (RuntimeObject.function fn)).fn
      = some { fn with status :=
          ⟨(waitingTransition fn.status.state).2, "", [], httpPort,
           some ⟨(waitingTransition fn.status.state).1, env.nowScale⟩⟩ } ∧
    waitingTransition FunctionState.waitingForScaleResourcesToZero
      = (ScaleEvent.scaleToZeroCompleted, FunctionState.scaledToZero) ∧
    waitingTransition FunctionState.waitingForScaleResourcesFromZero
      = (ScaleEvent.scaleFromZeroCompleted, FunctionState.ready) ∧
    waitingTransition FunctionState.waitingForResourceConfiguration
      = (ScaleEvent.resourceUpdated, FunctionState.ready) := by
  refine ⟨?_, ?_, rfl, rfl, rfl⟩ <;>
  · rcases hw with h | h | h <;>
      cases hu : env.statusUpdate <;>
        simp [CreateOrUpdate, createOrUpdateBody, ensureResources,
          finalizeWaiting, setFunctionScaleToZeroStatus, setFunctionStatus,
          hname, hskip, hcreate, hwait, hport, h, hu, FunctionStateInSlice,
          statesToRespond, waitingStates, waitingTransition]

/-- Witness for C1: scenario S1 of the spec, a waiting-for-configuration
function whose service exposes http node port 30080. -/
theorem createOrUpdate_waiting_success_stamps_scale_event_witness :
    (CreateOrUpdate
      ⟨fun _ => [], .ok ⟨.ok (some ⟨[⟨"http", 30080⟩]⟩)⟩, .ok (), .ok (), 7, 9⟩
      ⟨none⟩
      (RuntimeObject.function ⟨"fn1", "default", [], 0,
        ⟨.waitingForResourceConfiguration, "stale message", ["old log"], 0,
         none⟩⟩)).writes
      = [⟨FunctionState.ready, "", [], 30080,
          some ⟨ScaleEvent.resourceUpdated, 9⟩⟩] ∧
    (CreateOrUpdate
      ⟨fun _ => [], .ok ⟨.ok (some ⟨[⟨"http", 30080⟩]⟩)⟩, .ok (), .ok (), 7, 9⟩
      ⟨none⟩
      (RuntimeObject.function ⟨"fn1", "default", [], 0,
        ⟨.waitingForResourceConfiguration, "stale message", ["old log"], 0,
         none⟩⟩)).fn
      = some ⟨"fn1", "default", [], 0,
          ⟨FunctionState.ready, "", [], 30080,
           some ⟨ScaleEvent.resourceUpdated, 9⟩⟩⟩ := by
  have h := createOrUpdate_waiting_success_stamps_scale_event
    ⟨fun _ => [], .ok ⟨.ok (some ⟨[⟨"http", 30080⟩]⟩)⟩, .ok (), .ok (), 7, 9⟩
    ⟨none⟩
    ⟨"fn1", "default", [], 0,
      ⟨.waitingForResourceConfiguration, "stale message", ["old log"], 0, none⟩⟩
    ⟨.ok (some ⟨[⟨"http", 30080⟩]⟩)⟩ 30080
    (Or.inl rfl) rfl (by decide) rfl rfl (by decide)
  exact ⟨h.1, h.2.1⟩

/-- The http port the reconciler derives from an optional child service:
the node port of the first port named `http`, 0 when the service is nil or
has no such port. -/
def serviceHTTPPort : Option Service → Int
  | none => 0
  | some svc =>
    match firstHTTPPort svc.ports with
    | some p => p.nodePort
    | none => 0

/-- The child service exposes a first `http`-named port with a positive
node port. -/
def serviceHasPositiveHTTPPort : Option Service → Prop
  | none => False
  | some svc => ∃ p, firstHTTPPort svc.ports = some p ∧ 0 < p.nodePort

/-- Positivity of the derived http port is equivalent to the first
`http`-named port existing with a positive node port. -/
theorem serviceHTTPPort_pos_iff (osvc : Option Service) :
    0 < serviceHTTPPort osvc ↔ serviceHasPositiveHTTPPort osvc := by
  cases osvc with
  | none => simp [serviceHTTPPort, serviceHasPositiveHTTPPort]
  | some svc =>
    cases h : firstHTTPPort svc.ports with
    | none => simp [serviceHTTPPort, serviceHasPositiveHTTPPort, h]
    | some p => simp [serviceHTTPPort, serviceHasPositiveHTTPPort, h]

/-- Concrete environment for the C7 counterexample: the child service
exposes a port named `http` whose node port is 0 (as for a non-NodePort
service). -/
def csvc7 : Service := ⟨[⟨"http", 0⟩]⟩

def cenv7 : Env := ⟨fun _ => [], .ok ⟨.ok (some csvc7)⟩, .ok (), .ok (), 0, 0⟩

def cfn7 : NuclioFunction :=
  ⟨"fn7", "default", [], 0, ⟨.waitingForResourceConfiguration, "", [], 0, none⟩⟩

/-- Counterexample to C7 as stated: for this reconcile, which succeeds past
resource creation and readiness, the child service does expose an
`http`-named port, yet the written status has `httpPort = 0` — so
"`status.httpPort > 0` iff the child service exposed an http port" is
false. -/
theorem createOrUpdate_http_port_iff_counterexample :
    ((CreateOrUpdate cenv7 ⟨none⟩ (RuntimeObject.function cfn7)).writes.all
      (fun st => st.httpPort == 0)) = true ∧
    (CreateOrUpdate cenv7 ⟨none⟩ (RuntimeObject.function cfn7)).writes ≠ [] ∧
    (csvc7.ports.any (fun p => p.name == ContainerHTTPPortName)) = true := by
  decide

/-- C7 (amended): on a successful waiting-state reconcile, the written
`httpPort` is the node port of the first service port named `http` (0 when
no such port exists), and it is positive iff that first `http`-named port
exists and has a positive node port. -/
theorem createOrUpdate_http_port_characterization
    (env : Env) (ctx : Ctx) (fn : NuclioFunction) (res : Resources)
    (osvc : Option Service)
    (hw : fn.status.state = FunctionState.waitingForResourceConfiguration ∨
          fn.status.state = FunctionState.waitingForScaleResourcesFromZero ∨
          fn.status.state = FunctionState.waitingForScaleResourcesToZero)
    (hname : env.qualifiedNameErrors fn.name = [])
    (hskip : ShouldSkipDeploy fn.annotations = false)
    (hcreate : env.resourceCreateOrUpdate = .ok res)
    (hwait : env.waitAvailable = .ok ())
    (hsvc : res.service = .ok osvc) :
    ∃ st : Status,
      (CreateOrUpdate env ctx (RuntimeObject.function fn)).writes = [st] ∧
      st.httpPort = serviceHTTPPort osvc ∧
      (0 < st.httpPort ↔ serviceHasPositiveHTTPPort osvc) := by
  have hport : getFunctionHTTPPort res = .ok (serviceHTTPPort osvc) := by
    cases osvc with
    | none => simp [getFunctionHTTPPort, hsvc, serviceHTTPPort]
    | some svc =>
      simp [getFunctionHTTPPort, hsvc, serviceHTTPPort,
        scanHTTPPort_eq_firstHTTPPort]
  refine ⟨⟨(waitingTransition fn.status.state).2, "", [], serviceHTTPPort osvc,
    some ⟨(waitingTransition fn.status.state).1, env.nowScale⟩⟩, ?_, rfl,
    serviceHTTPPort_pos_iff osvc⟩
  rcases hw with h | h | h <;>
    cases hu : env.statusUpdate <;>
      simp [CreateOrUpdate, createOrUpdateBody, ensureResources,
        finalizeWaiting, setFunctionScaleToZeroStatus, setFunctionStatus,
        hname, hskip, hcreate, hwait, hport, h, hu, FunctionStateInSlice,
        statesToRespond, waitingStates, waitingTransition]

/-- Witness for the amended C7 at a service exposing node port 30080. -/
theorem createOrUpdate_http_port_characterization_witness :
    ∃ st : Status,
      (CreateOrUpdate
        ⟨fun _ => [], .ok ⟨.ok (some ⟨[⟨"http", 30080⟩]⟩)⟩, .ok (), .ok (), 0, 3⟩
        ⟨none⟩
        (RuntimeObject.function ⟨"fn7w", "default", [], 0,
          ⟨.waitingForScaleResourcesFromZero, "", [], 0, none⟩⟩)).writes = [st] ∧
      st.httpPort = serviceHTTPPort (some ⟨[⟨"http", 30080⟩]⟩) ∧
      (0 < st.httpPort ↔ serviceHasPositiveHTTPPort (some ⟨[⟨"http", 30080⟩]⟩)) :=
  createOrUpdate_http_port_characterization _ _ _ ⟨.ok (some ⟨[⟨"http", 30080⟩]⟩)⟩
    (some ⟨[⟨"http", 30080⟩]⟩) (Or.inr (Or.inl rfl)) rfl (by decide) rfl rfl rfl

/-- C3: a panic in the body guarded by the recovery defer is captured and
not re-raised — the handler returns normally with a nil error — and the
function status is set to `error` with a nonempty stack message rendered at
depth 10. -/
theorem createOrUpdate_panic_recovered_error_status
    (env : Env) (ctx : Ctx) (fn : NuclioFunction) (e : Err)
    (ws : List Status) (rcc : Bool) (wd : Option Nat)
    (hp : createOrUpdateBody env ctx fn = BodyResult.panicked e ws rcc wd) :
    (CreateOrUpdate env ctx (RuntimeObject.function fn)).uncaught = false ∧
    (CreateOrUpdate env ctx (RuntimeObject.function fn)).panicRecovered = true ∧
    (CreateOrUpdate env ctx (RuntimeObject.function fn)).ret = none ∧
    (∃ fn' : NuclioFunction,
      (CreateOrUpdate env ctx (RuntimeObject.function fn)).fn = some fn' ∧
      fn'.status.state = FunctionState.error ∧
      fn'.status.message =
        GetErrorStackString (Err.wrap "Failed to create/update function" e) 10 ∧
      0 < fn'.status.message.length) ∧
    (CreateOrUpdate env ctx (RuntimeObject.function fn)).writes
      = ws ++ [⟨FunctionState.error,
          GetErrorStackString (Err.wrap "Failed to create/update function" e) 10,
          [], 0, none⟩] := by
  refine ⟨?_, ?_, ?_,
    ⟨{ fn with status :=
        ⟨FunctionState.error,
         GetErrorStackString (Err.wrap "Failed to create/update function" e) 10,
         [], 0, none⟩ }, ?_, rfl, rfl,
      getErrorStackString_wrap_length_pos _ e (by decide)⟩, ?_⟩ <;>
  · cases hu : env.statusUpdate <;>
      simp [CreateOrUpdate, hp, setFunctionError, setFunctionStatus, hu]

/-- Witness for C3: the resource client panics with "boom". -/
theorem createOrUpdate_panic_recovered_error_status_witness :
    createOrUpdateBody
        ⟨fun _ => [], .panics (.msg "boom"), .ok (), .ok (), 0, 0⟩ ⟨none⟩
        ⟨"fn3", "default", [], 0,
          ⟨.waitingForResourceConfiguration, "", [], 0, none⟩⟩
      = BodyResult.panicked (.msg "boom") [] true none ∧
    (CreateOrUpdate ⟨fun _ => [], .panics (.msg "boom"), .ok (), .ok (), 0, 0⟩
        ⟨none⟩
        (RuntimeObject.function ⟨"fn3", "default", [], 0,
          ⟨.waitingForResourceConfiguration, "", [], 0, none⟩⟩)).uncaught
      = false ∧
    (CreateOrUpdate ⟨fun _ => [], .panics (.msg "boom"), .ok (), .ok (), 0, 0⟩
        ⟨none⟩
        (RuntimeObject.function ⟨"fn3", "default", [], 0,
          ⟨.waitingForResourceConfiguration, "", [], 0, none⟩⟩)).panicRecovered
      = true := by
  have h := createOrUpdate_panic_recovered_error_status
    ⟨fun _ => [], .panics (.msg "boom"), .ok (), .ok (), 0, 0⟩ ⟨none⟩
    ⟨"fn3", "default", [], 0,
      ⟨.waitingForResourceConfiguration, "", [], 0, none⟩⟩
    (.msg "boom") [] true none (by decide)
  exact ⟨by decide, h.1, h.2.1⟩

/-- The wait-context deadline recorded by a body outcome. -/
def bodyWaitDeadline : BodyResult → Option Nat
  | .normal _ _ _ _ wd => wd
  | .panicked _ _ _ wd => wd

/-- The run-level wait deadline and cancel flag are those of the body
outcome. -/
theorem createOrUpdate_waitDeadline_eq (env : Env) (ctx : Ctx)
    (fn : NuclioFunction) :
    (CreateOrUpdate env ctx (RuntimeObject.function fn)).waitDeadline
      = bodyWaitDeadline (createOrUpdateBody env ctx fn) ∧
    (CreateOrUpdate env ctx (RuntimeObject.function fn)).cancelCalled
      = (bodyWaitDeadline (createOrUpdateBody env ctx fn)).isSome := by
  cases hb : createOrUpdateBody env ctx fn with
  | normal fn' ws ret rcc wd => simp [CreateOrUpdate, hb, bodyWaitDeadline]
  | panicked e ws rcc wd =>
    cases hu : env.statusUpdate <;>
      simp [CreateOrUpdate, hb, bodyWaitDeadline, setFunctionError,
        setFunctionStatus, hu]

/-- The finalization step preserves the wait deadline it is given. -/
theorem finalizeWaiting_waitDeadline (env : Env) (fn : NuclioFunction)
    (res : Resources) (wd : Option Nat) :
    bodyWaitDeadline (finalizeWaiting env fn res wd) = wd := by
  unfold finalizeWaiting
  by_cases hw : FunctionStateInSlice fn.status.state waitingStates = true <;>
    cases h : getFunctionHTTPPort res <;>
      cases hu : env.statusUpdate <;>
        simp [h, hu, hw, bodyWaitDeadline, setFunctionScaleToZeroStatus,
          setFunctionStatus]

/-- The deadline of the derived wait context is the minimum of the parent
deadline and the given absolute time. -/
theorem withDeadline_deadline (ctx : Ctx) (d : Nat) :
    (withDeadline ctx d).deadline = some (min (ctx.deadline.getD d) d) := by
  cases h : ctx.deadline <;> simp [withDeadline, h, Nat.min_self]

/-- C8: once the provisioning path reaches the readiness wait, the bounded
context deadline is the minimum of the incoming context deadline and
now + readinessTimeoutSeconds, with a zero spec value replaced by the
default; the derived context is cancelled on exit from the handler. -/
theorem createOrUpdate_wait_deadline_bounded
    (env : Env) (ctx : Ctx) (fn : NuclioFunction) (res : Resources)
    (hname : env.qualifiedNameErrors fn.name = [])
    (hstate : FunctionStateInSlice fn.status.state statesToRespond = true)
    (hskip : ShouldSkipDeploy fn.annotations = false)
    (hcreate : env.resourceCreateOrUpdate = .ok res) :
    (CreateOrUpdate env ctx (RuntimeObject.function fn)).waitDeadline
      = some (min
          (ctx.deadline.getD (env.now +
            (if fn.readinessTimeoutSeconds == 0 then
              DefaultReadinessTimeoutSeconds
             else fn.readinessTimeoutSeconds)))
          (env.now +
            (if fn.readinessTimeoutSeconds == 0 then
              DefaultReadinessTimeoutSeconds
             else fn.readinessTimeoutSeconds))) ∧
    (CreateOrUpdate env ctx (RuntimeObject.function fn)).cancelCalled = true := by
  have hbd : bodyWaitDeadline (createOrUpdateBody env ctx fn)
      = some (min
          (ctx.deadline.getD (env.now +
            (if fn.readinessTimeoutSeconds == 0 then
              DefaultReadinessTimeoutSeconds
             else fn.readinessTimeoutSeconds)))
          (env.now +
            (if fn.readinessTimeoutSeconds == 0 then
              DefaultReadinessTimeoutSeconds
             else fn.readinessTimeoutSeconds))) := by
    cases hwa : env.waitAvailable with
    | ok u =>
      simp [createOrUpdateBody, ensureResources, hname, hstate, hskip,
        hcreate, hwa, finalizeWaiting_waitDeadline, withDeadline_deadline]
    | err e =>
      cases hu : env.statusUpdate <;>
        simp [createOrUpdateBody, ensureResources, hname, hstate, hskip,
          hcreate, hwa, setFunctionError, setFunctionStatus, hu,
          bodyWaitDeadline, withDeadline_deadline]
    | panics e =>
      simp [createOrUpdateBody, ensureResources, hname, hstate, hskip,
        hcreate, hwa, bodyWaitDeadline, withDeadline_deadline]
  refine ⟨(createOrUpdate_waitDeadline_eq env ctx fn).1.trans hbd, ?_⟩
  rw [(createOrUpdate_waitDeadline_eq env ctx fn).2, hbd]
  rfl

/-- Witness for C8: a parent deadline of 50 beats now 10 plus the default
timeout of 120; the spec timeout 0 is replaced by the default. -/
theorem createOrUpdate_wait_deadline_bounded_witness :
    (CreateOrUpdate ⟨fun _ => [], .ok ⟨.ok none⟩, .ok (), .ok (), 10, 0⟩
      ⟨some 50⟩
      (RuntimeObject.function ⟨"fn8", "default", [], 0,
        ⟨.ready, "", [], 0, none⟩⟩)).waitDeadline = some 50 ∧
    (CreateOrUpdate ⟨fun _ => [], .ok ⟨.ok none⟩, .ok (), .ok (), 10, 0⟩
      ⟨some 50⟩
      (RuntimeObject.function ⟨"fn8", "default", [], 0,
        ⟨.ready, "", [], 0, none⟩⟩)).cancelCalled = true := by
  have h := createOrUpdate_wait_deadline_bounded
    ⟨fun _ => [], .ok ⟨.ok none⟩, .ok (), .ok (), 10, 0⟩ ⟨some 50⟩
    ⟨"fn8", "default", [], 0, ⟨.ready, "", [], 0, none⟩⟩ ⟨.ok none⟩
    rfl (by decide) (by decide) rfl
  exact ⟨by rw [h.1]; decide, h.2⟩

/-- C10: when the child service handle cannot be obtained after a
successful readiness wait on a waiting state, the handler returns the
doubly wrapped error and leaves the function status untouched — no status
write, no `error` or `unhealthy` state. -/
theorem createOrUpdate_service_failure_no_write
    (env : Env) (ctx : Ctx) (fn : NuclioFunction) (res : Resources) (e : Err)
    (hw : fn.status.state = FunctionState.waitingForResourceConfiguration ∨
          fn.status.state = FunctionState.waitingForScaleResourcesFromZero ∨
          fn.status.state = FunctionState.waitingForScaleResourcesToZero)
    (hname : env.qualifiedNameErrors fn.name = [])
    (hskip : ShouldSkipDeploy fn.annotations = false)
    (hcreate : env.resourceCreateOrUpdate = .ok res)
    (hwait : env.waitAvailable = .ok ())
    (hsvc : res.service = .err e) :
    (CreateOrUpdate env ctx (RuntimeObject.function fn)).ret
      = some (Err.wrap "Failed to get function http port"
          (Err.wrap "Failed to get function service" e)) ∧
    (CreateOrUpdate env ctx (RuntimeObject.function fn)).writes = [] ∧
    (CreateOrUpdate env ctx (RuntimeObject.function fn)).fn = some fn := by
  rcases hw with h | h | h <;>
    simp [CreateOrUpdate, createOrUpdateBody, ensureResources, finalizeWaiting,
      getFunctionHTTPPort, hname, hskip, hcreate, hwait, hsvc, h,
      FunctionStateInSlice, statesToRespond, waitingStates]

/-- Witness for C10 at a concrete service fetch failure. -/
theorem createOrUpdate_service_failure_no_write_witness :
    (CreateOrUpdate
      ⟨fun _ => [], .ok ⟨.err (.msg "svc gone")⟩, .ok (), .ok (), 0, 0⟩ ⟨none⟩
      (RuntimeObject.function ⟨"fn10", "default", [], 0,
        ⟨.waitingForScaleResourcesToZero, "", [], 0, none⟩⟩)).ret
      = some (Err.wrap "Failed to get function http port"
          (Err.wrap "Failed to get function service" (.msg "svc gone"))) ∧
    (CreateOrUpdate
      ⟨fun _ => [], .ok ⟨.err (.msg "svc gone")⟩, .ok (), .ok (), 0, 0⟩ ⟨none⟩
      (RuntimeObject.function ⟨"fn10", "default", [], 0,
        ⟨.waitingForScaleResourcesToZero, "", [], 0, none⟩⟩)).writes = [] ∧
    (CreateOrUpdate
      ⟨fun _ => [], .ok ⟨.err (.msg "svc gone")⟩, .ok (), .ok (), 0, 0⟩ ⟨none⟩
      (RuntimeObject.function ⟨"fn10", "default", [], 0,
        ⟨.waitingForScaleResourcesToZero, "", [], 0, none⟩⟩)).fn
      = some ⟨"fn10", "default", [], 0,
          ⟨.waitingForScaleResourcesToZero, "", [], 0, none⟩⟩ :=
  createOrUpdate_service_failure_no_write _ _ _ ⟨.err (.msg "svc gone")⟩
    (.msg "svc gone") (Or.inr (Or.inr rfl)) rfl (by decide) rfl rfl rfl

/-- Concrete environment for the C9 evaluation. -/
def env9 : Env := ⟨fun _ => [], .ok ⟨.ok none⟩, .ok (), .ok (), 0, 0⟩

/-- C9 (code bug, evaluated at the failing input): `setFunctionError` with a
nil function target — as invoked on the unexpected-object path — evaluates
`function.Name` in the warning-log arguments with no nil guard, so the call
dereferences the nil target and faults instead of short-circuiting; the
resulting panic escapes `CreateOrUpdate` because the recovery defer is not
yet installed at that point, and no status write or error return occurs. -/
theorem setFunctionError_nil_target_faults :
    setFunctionError env9 none FunctionState.error
        (Err.msg "Received unexpected object, expected function")
      = SetErrorOutcome.derefFault ∧
    (CreateOrUpdate env9 ⟨none⟩ RuntimeObject.other).uncaught = true ∧
    (CreateOrUpdate env9 ⟨none⟩ RuntimeObject.other).writes = [] :=
  ⟨rfl, rfl, rfl⟩
